import Mathlib

/-
Shallow embedding, in Lean 4, of the core of the scrappex repository
(src/function.py and src/main.py): a timed multi-target purchase scheduler.

Modelling conventions:
- Wall-clock readings (datetime.now()) are an environment-supplied trace
  `clock : Nat -> Int` of millisecond timestamps, consumed one reading per
  call site, in program order.
- Network I/O (HTTP responses, raised exceptions) is environment-supplied
  data: a request either yields a response (transport status plus body) or
  raises, and the json.loads outcome on a body is part of the response
  datum, since the JSON library is external to the repository.
- Python exceptions are `Except String`; an `Except.error` value that
  escapes a modelled function corresponds to a propagated Python exception.
- The two busy-wait loops of perform_synchronized_purchase are modelled
  with explicit fuel; `none` means the loop did not exit within the fuel,
  which corresponds to the Python loop still spinning.
- Python strings are Lean `String`s; Python's lexicographic string
  comparison (used by `min(..., key=lambda x: x['duration_ms'])`) is the
  lexicographic order on the underlying character lists.
-/

/-- Outcome of `json.loads(response_text)` followed by `.get('statut')`:
either the body parses as JSON (with the optional value of its `statut`
field) or a `json.JSONDecodeError` is raised. -/
inductive ParseResult where
  | parsed (statut : Option String)
  | decodeError
deriving DecidableEq, Repr

/-- What one HTTP POST of a purchase attempt produced at the wire level:
a response (transport status code, body text, and how the body parses),
or a raised exception carrying a message. -/
inductive AttemptWire where
  | response (status : Nat) (body : String) (parse : ParseResult)
  | failure (msg : String)
deriving DecidableEq, Repr

/-- The per-attempt dict built by `single_purchase_attempt` inside
`perform_concurrent_purchases` (src/function.py lines 149-200). Keys that
are absent in some branches of the Python code are `Option`-valued. -/
structure AttemptRecord where
  request : Option Bool
  success : Bool
  status_code : Option Nat
  response_text : Option String
  duration_ms : Int
  parsed_response : Option (Option String)
  error : Option String
  timestamp : Int
deriving DecidableEq, Repr

/-- Environment datum for one attempt of `perform_concurrent_purchases`:
its wire-level outcome, its measured elapsed duration in ms, and the
`datetime.now()` completion timestamp recorded in the returned dict. -/
structure AttemptInp where
  wire : AttemptWire
  duration : Int
  timestamp : Int
deriving Repr

/-- Python truthiness of the value looked up by `r.get('error', None)`:
`None` and the empty string are falsy, any other string is truthy. -/
def errTruthy : Option String → Bool
  | none => false
  | some s => s.data ≠ []

/-- The body of `single_purchase_attempt` (src/function.py lines 149-200).
On a parsed response the dict has no `error` key and
`success = (status == 200 and parsed.get('statut') == 'success')`; on a
`JSONDecodeError` it carries `error = 'JSON decode error'`; when the POST
raises, the final `return` runs after every `except` block, where the bound
exception name has already been unbound (Python deletes `e` at the end of
`except ... as e`), so `'e' in locals()` is false and the error message is
always the literal `'Unknown error'`. -/
def single_purchase_attempt (w : AttemptWire) (dur : Int) (ts : Int) : AttemptRecord :=
  match w with
  | .response status body (.parsed statut) =>
      { request := some true
        success := status == 200 && statut == some "success"
        status_code := some status
        response_text := some body
        duration_ms := dur
        parsed_response := some statut
        error := none
        timestamp := ts }
  | .response status body .decodeError =>
      { request := some false
        success := false
        status_code := some status
        response_text := some body
        duration_ms := dur
        parsed_response := none
        error := some "JSON decode error"
        timestamp := ts }
  | .failure _ =>
      { request := none
        success := false
        status_code := none
        response_text := none
        duration_ms := dur
        parsed_response := none
        error := some "Unknown error"
        timestamp := ts }

/-- Left fold computing the element with the least key, keeping the
earliest such element on ties; this is the value of Python's stable
`sorted(l, key=key)[0]` (equivalently `min(l, key=key)`) on the nonempty
list `r :: rs`. -/
def foldlMinBy {α β : Type} [LinearOrder β] (key : α → β) (r : α) (rs : List α) : α :=
  rs.foldl (fun b x => if key x < key b then x else b) r

/-- The list `results = await asyncio.gather(*tasks)` of
`perform_concurrent_purchases` (src/function.py lines 202-204): `attempts`
concurrent runs of `single_purchase_attempt`, one record each, in task
order. The environment `env` supplies each task's wire outcome and
timings. -/
def perform_concurrent_purchases_results (attempts : Nat) (env : Nat → AttemptInp) :
    List AttemptRecord :=
  (List.range attempts).map
    (fun i => single_purchase_attempt (env i).wire (env i).duration (env i).timestamp)

/-- Default value of the `attempts` parameter of
`perform_concurrent_purchases`. -/
def concurrent_attempts_default : Nat := 5

/-- Return value of `perform_concurrent_purchases` (src/function.py lines
132-212): keep the records whose `error` entry is falsy, and return the
first element of the stable sort by the `timestamp` key, or `None` when no
record survives the filter. -/
def perform_concurrent_purchases (attempts : Nat) (env : Nat → AttemptInp) :
    Option AttemptRecord :=
  match (perform_concurrent_purchases_results attempts env).filter
      (fun r => !(errTruthy r.error)) with
  | [] => none
  | r :: rs => some (foldlMinBy (fun x => x.timestamp) r rs)

/-- A Python value passed as the `purchase_time` argument of
`perform_synchronized_purchase`: the annotation says `datetime`, but
`perform_timed_purchase_batch` (src/function.py line 338) actually passes
the whole `purchase_times` list, so both shapes must be representable. -/
inductive PyTime where
  | dt (t : Int)
  | listOfTimes (ts : List Int)
deriving DecidableEq, Repr

/-- The dict returned by `make_request` inside
`perform_synchronized_purchase` (src/function.py lines 258-293). The
`duration_ms` value is a Python *string* (either the formatted
`f-string` or the literal `"N/A"`). -/
structure SyncAttempt where
  lot : Int
  success : Bool
  status : Nat
  purchase_times : PyTime
  response_text : String
  duration_ms : String
deriving DecidableEq, Repr

/-- Result of one lot's run of `perform_synchronized_purchase`: either the
selected winning attempt dict (src/function.py line 309) or the
all-attempts-failed dict carrying `sync_offset_ms` (lines 311-316). -/
inductive LotOutcome where
  | winner (r : SyncAttempt)
  | allFailed (lot : Int) (sync_offset_ms : Int)
deriving DecidableEq, Repr

/-- The body of `make_request` (src/function.py lines 258-293): when the
POST yields any response at all, the dict has `success: True` with the
transport status and the formatted duration string; the body is never
parsed here. When the POST raises, the dict has `success: False`,
`status: 500` and `duration_ms: "N/A"`. -/
def make_request (lot : Int) (pt : PyTime) (w : AttemptWire) (dur : String) : SyncAttempt :=
  match w with
  | .response status body _ =>
      { lot := lot, success := true, status := status, purchase_times := pt
        response_text := body, duration_ms := dur }
  | .failure msg =>
      { lot := lot, success := false, status := 500, purchase_times := pt
        response_text := msg, duration_ms := "N/A" }

/-- The winner selection of `perform_synchronized_purchase` (src/function.py
lines 305-309): keep the records whose `success` flag is true and take
`min(successful_results, key=lambda x: x['duration_ms'])`, a lexicographic
comparison of the duration *strings*; `none` when no record has
`success = True`. -/
def selectWinner (results : List SyncAttempt) : Option SyncAttempt :=
  match results.filter (fun r => r.success) with
  | [] => none
  | r :: rs => some (foldlMinBy (fun x => x.duration_ms.data) r rs)

/-- The coarse wait loop (src/function.py lines 236-237):
`while (purchase_time - datetime.now()).total_seconds() > 3: sleep(0.001)`.
Each condition check consumes one clock reading; the loop exits at the
first reading (from index `i` on) within 3000 ms of the target. Returns
the index of the exiting reading, or `none` if the fuel runs out. -/
def coarseWait (clock : Nat → Int) (target : Int) : Nat → Nat → Option Nat
  | 0, _ => none
  | fuel + 1, i => if target - clock i > 3000 then coarseWait clock target fuel (i + 1) else some i

/-- The fine synchronization loop (src/function.py lines 250-251):
`while datetime.now() < purchase_time: sleep(0.001)`. Each condition check
consumes one clock reading; the loop exits at the first reading (from
index `i` on) that is no earlier than the target. Returns the index of the
exiting reading, or `none` if the fuel runs out. -/
def fineWait (clock : Nat → Int) (target : Int) : Nat → Nat → Option Nat
  | 0, _ => none
  | fuel + 1, i => if clock i < target then fineWait clock target fuel (i + 1) else some i

/-- Environment of one run of `perform_synchronized_purchase` other than
the lot id and target instant: the clock-reading trace, the warm-up
request's outcome, and each of the 5 burst attempts' wire outcome and
formatted duration string. -/
structure SyncEnvCore where
  clock : Nat → Int
  warmup : Except String Unit
  responses : Fin 5 → AttemptWire
  durations : Fin 5 → String

/-- Full environment of one run of `perform_synchronized_purchase`. -/
structure SyncEnv extends SyncEnvCore where
  lot : Int
  purchase_time : PyTime

/-- The burst `results = await asyncio.gather(*tasks)` of
`perform_synchronized_purchase` (src/function.py lines 296-297): exactly
5 runs of `make_request` (the count is the literal `range(5)`), one record
each, in task order. -/
def burstResults (lot : Int) (pt : PyTime) (e : SyncEnvCore) : List SyncAttempt :=
  (List.finRange 5).map (fun k => make_request lot pt (e.responses k) (e.durations k))

/-- The body of `perform_synchronized_purchase` (src/function.py lines
214-316) over an explicit environment. The first statement evaluates
`(purchase_time - datetime.now()).total_seconds()`; when the argument is a
list (as `perform_timed_purchase_batch` passes it) this raises `TypeError`
at once. Otherwise: coarse wait, then `await warmup_connection()` with no
surrounding try/except (an error there propagates), then the fine wait,
the `sync_offset` reading, the 5-attempt burst, and the winner selection;
with no successful attempt the all-failed dict carries
`sync_offset_ms = sync_offset * 1000`. `none` models a wait loop that has
not yet exited (fuel exhausted). -/
def perform_synchronized_purchase (e : SyncEnv) (fuel : Nat) :
    Option (Except String LotOutcome) :=
  match e.purchase_time with
  | .listOfTimes _ =>
      some (.error "TypeError: unsupported operand type(s) for -: list and datetime.datetime")
  | .dt target =>
      match coarseWait e.clock target fuel 1 with
      | none => none
      | some i =>
          match e.warmup with
          | .error msg => some (.error msg)
          | .ok _ =>
              match fineWait e.clock target fuel (i + 1) with
              | none => none
              | some j =>
                  let sync_offset_ms : Int := e.clock (j + 1) - target
                  let results := burstResults e.lot e.purchase_time e.toSyncEnvCore
                  some (.ok (match selectWinner results with
                             | some w => .winner w
                             | none => .allFailed e.lot sync_offset_ms))

/-- Python `str.lower()` restricted to the ASCII case mapping, applied
character by character. -/
def pyLower (s : String) : String := String.mk (s.data.map Char.toLower)

/-- Python's `pat in s` substring test on the underlying character lists. -/
def containsSub (s pat : String) : Bool := go pat.data s.data
where
  go (pat : List Char) : List Char → Bool
    | [] => pat.isEmpty
    | c :: rest => List.isPrefixOf pat (c :: rest) || go pat rest

/-- Value of a metrics-dict entry in `login_to_website`: the timing
entries hold floats (modelled as integral millisecond counts) and the
`error` entry holds the exception text. -/
inductive MVal where
  | num (t : Int)
  | str (s : String)
deriving DecidableEq, Repr

/-- Environment of `fetch_login_page` (src/function.py lines 72-86): the
GET's transport outcome, the optional `ceo_csrf_cookie` value on the
response, and the optional `loginToken` input value found in the page
markup (the BeautifulSoup extraction is external, so its result is an
environment datum). -/
structure FetchEnv where
  transport : Except String Unit
  csrf_cookie : Option String
  login_token : Option String

/-- Environment of `login_to_website`: the login-page fetch, the POST of
the credentials (on success, the response text and the final URL after
redirects), and the measured durations. -/
structure LoginEnv where
  fetch : FetchEnv
  auth : Except String (String × String)
  prep_time : Int
  auth_time : Int
  total_time : Int

/-- The 5-tuple returned by `login_to_website` (src/function.py line 93):
success flag, total time, metrics dict, optional session, optional CSRF
token. The session handle is opaque, so it is modelled as `Option Unit`. -/
structure LoginResult where
  success : Bool
  total_time : Int
  metrics : List (String × MVal)
  session : Option Unit
  csrf_token : Option String
deriving DecidableEq, Repr

/-- The body of `fetch_login_page` (src/function.py lines 72-86): a
transport error propagates; a missing `ceo_csrf_cookie` raises
`LoginError("CSRF cookie missing")`; a missing or value-less `loginToken`
input raises `LoginError("Login token not found")`; otherwise the pair
(csrf cookie value, login token value) is returned. -/
def fetch_login_page (env : FetchEnv) : Except String (String × String) :=
  match env.transport with
  | .error e => .error e
  | .ok _ =>
      match env.csrf_cookie with
      | none => .error "CSRF cookie missing"
      | some csrf =>
          match env.login_token with
          | none => .error "Login token not found"
          | some tok => .ok (csrf, tok)

/-- The failure return of `login_to_website` (src/function.py lines
127-130): `(False, total_time, dict with error and total entries, None,
None)`. -/
def loginFailure (msg : String) (total : Int) : LoginResult :=
  { success := false
    total_time := total
    metrics := [("error", .str msg), ("total", .num total)]
    session := none
    csrf_token := none }

/-- The body of `login_to_website` (src/function.py lines 88-130). All
exceptions raised inside the body (token fetch, credential POST, the
`LoginError("Login failed")` raised when the response text contains
"error" case-insensitively or the final URL still contains "login") are
caught by the single `except Exception` and turned into the failure
5-tuple; on success the metrics hold the three timing entries and the
session and CSRF token are returned. -/
def login_to_website (env : LoginEnv) : LoginResult :=
  match fetch_login_page env.fetch with
  | .error e => loginFailure e env.total_time
  | .ok (csrf, _tok) =>
      match env.auth with
      | .error e => loginFailure e env.total_time
      | .ok (auth_text, url) =>
          if containsSub (pyLower auth_text) "error" || containsSub url "login" then
            loginFailure "Login failed" env.total_time
          else
            { success := true
              total_time := env.total_time
              metrics := [("login_preparation", .num env.prep_time),
                          ("authentication", .num env.auth_time),
                          ("total", .num env.total_time)]
              session := some ()
              csrf_token := some csrf }

/-- Sequencing of task completion: `none` when some task has not finished
(fuel exhaustion in this model), otherwise the list of task outcomes. -/
def sequenceOption {α : Type} : List (Option α) → Option (List α)
  | [] => some []
  | none :: _ => none
  | some a :: rest =>
      match sequenceOption rest with
      | none => none
      | some as => some (a :: as)

/-- The semantics of `await asyncio.gather(*tasks)` with the default
`return_exceptions=False` on finished tasks: if every task returned
normally, the list of their values in task order; if some task raised, the
raised exception propagates (this model propagates the first one in task
order; `perform_timed_purchase_batch` discards the message anyway). -/
def gatherExcept {ε α : Type} : List (Except ε α) → Except ε (List α)
  | [] => .ok []
  | .error e :: _ => .error e
  | .ok a :: rest =>
      match gatherExcept rest with
      | .error e => .error e
      | .ok as => .ok (a :: as)

/-- The try/except/finally around the gather in
`perform_timed_purchase_batch` (src/function.py lines 337-348): a normal
gather yields the per-lot results; any exception reaching the `except
Exception` block replaces the results with the empty list. -/
def batchGatherStage (tasks : List (Except String LotOutcome)) : List LotOutcome :=
  match gatherExcept tasks with
  | .ok rs => rs
  | .error _ => []

/-- The body of `perform_timed_purchase_batch` (src/function.py lines
318-348): log in once; on failure return `[]` at once; otherwise build one
`perform_synchronized_purchase` task per lot — passing the *whole*
`purchase_times` list as each task's `purchase_time` argument, exactly as
line 338 does — gather them, and degrade any gather exception to `[]`.
`none` models a batch whose tasks have not all finished within the fuel. -/
def perform_timed_purchase_batch (lenv : LoginEnv) (lotEnv : Int → SyncEnvCore)
    (lots : List Int) (purchase_times : List Int) (fuel : Nat) :
    Option (List LotOutcome) :=
  if (login_to_website lenv).success then
    match sequenceOption (lots.map (fun lot =>
        perform_synchronized_purchase
          { toSyncEnvCore := lotEnv lot
            lot := lot
            purchase_time := .listOfTimes purchase_times } fuel)) with
    | none => none
    | some tasks => some (batchGatherStage tasks)
  else
    some []

/-- The externally visible status values kept in the `purchase_results`
store of src/main.py. -/
inductive BatchStatus where
  | pending
  | completed
  | error
deriving DecidableEq, Repr

/-- The entry of the `purchase_results` store for one request id, as
updated by `perform_purchases` (src/main.py lines 40-47 and 95-110). -/
structure PurchaseState where
  status : BatchStatus
  results : Option (List LotOutcome)
  error_msg : Option String
deriving DecidableEq, Repr

/-- The body of `perform_purchases` (src/main.py lines 82-111) composed
with the initial `pending` entry: await the batch and set the entry to
`completed` with the returned results. Every modelled failure inside the
batch is absorbed before it reaches this function (the login catches its
own exceptions and the batch catches the gather's), so the `except` branch
that would set the `error` status has no reachable trigger in the model; a
batch that never finishes leaves the entry `pending`. -/
def perform_purchases (lenv : LoginEnv) (lotEnv : Int → SyncEnvCore)
    (lots : List Int) (purchase_times : List Int) (fuel : Nat) : PurchaseState :=
  match perform_timed_purchase_batch lenv lotEnv lots purchase_times fuel with
  | none => { status := .pending, results := none, error_msg := none }
  | some rs => { status := .completed, results := some rs, error_msg := none }

/-- Attempt input: a parsed success response completing at the given
timestamp with the given elapsed duration. -/
def successInp (ts dur : Int) : AttemptInp :=
  { wire := .response 200 "statut success" (.parsed (some "success"))
    duration := dur
    timestamp := ts }

/-- Attempt input: a parsed rejection response (statut is not success)
completing at the given timestamp with the given elapsed duration. -/
def rejectionInp (ts dur : Int) : AttemptInp :=
  { wire := .response 200 "statut echec" (.parsed (some "echec"))
    duration := dur
    timestamp := ts }

/-- A burst whose records are two successes completing at t=102 and t=98
plus a parsed rejection completing earlier, at t=50. -/
def mixedBurstEnv : Nat → AttemptInp
  | 0 => successInp 102 40
  | 1 => successInp 98 30
  | _ => rejectionInp 50 4

/-- A burst of two successes only, completing at t=102 and t=98. -/
def twoSuccessEnv : Nat → AttemptInp
  | 0 => successInp 102 40
  | _ => successInp 98 30

/-- A burst whose single record is a parsed rejection. -/
def rejectionOnlyEnv : Nat → AttemptInp := fun _ => rejectionInp 10 5

/-- Identity clock trace: reading n is n milliseconds. -/
def natClock : Nat → Int := fun n => (n : Int)

/-- A synchronized-purchase environment whose warm-up request raises. -/
def warmupFailEnv : SyncEnv :=
  { clock := fun i => 1000 * (i : Int)
    warmup := .error "ConnectionError"
    responses := fun _ => .response 200 "statut success" (.parsed (some "success"))
    durations := fun _ => "12.00"
    lot := 7
    purchase_time := .dt 2000 }

/-- A synchronized-purchase environment in which every burst attempt
raises, so no attempt has a true success flag. -/
def allFailEnv : SyncEnv :=
  { clock := natClock
    warmup := .ok ()
    responses := fun _ => .failure "ConnectionError"
    durations := fun _ => "N/A"
    lot := 1
    purchase_time := .dt 5 }

/-- A login environment whose login-page response carries no CSRF cookie,
so the login fails. -/
def badLoginEnv : LoginEnv :=
  { fetch := { transport := .ok (), csrf_cookie := none, login_token := none }
    auth := .error "unused"
    prep_time := 1
    auth_time := 2
    total_time := 3 }

/-- A login environment in which every step succeeds: tokens are present,
the credential POST's text has no "error" and its final URL has no
"login", so the login succeeds. -/
def goodLoginEnv : LoginEnv :=
  { fetch := { transport := .ok (), csrf_cookie := some "csrf123", login_token := some "tok456" }
    auth := .ok ("Bienvenue sur votre espace", "https://example.com/compte")
    prep_time := 5
    auth_time := 6
    total_time := 11 }

/-- A per-lot environment assignment for batch runs. -/
def trivLotEnv : Int → SyncEnvCore := fun _ =>
  { clock := natClock
    warmup := .ok ()
    responses := fun _ => .failure "timeout"
    durations := fun _ => "N/A" }

/-- A burst in which every attempt raises, so every record carries a
truthy error entry. -/
def allErrorEnv : Nat → AttemptInp := fun _ =>
  { wire := .failure "boom", duration := 1, timestamp := 2 }

/-- Unfolding of `foldlMinBy` over a cons cell. -/
theorem foldlMinBy_cons {α β : Type} [LinearOrder β] (key : α → β) (r x : α) (xs : List α) :
    foldlMinBy key r (x :: xs) = foldlMinBy key (if key x < key r then x else r) xs := rfl

/-- Specification of `foldlMinBy`: the result is drawn from the inputs and
its key is a lower bound of every input key. -/
theorem foldlMinBy_spec {α β : Type} [LinearOrder β] (key : α → β) (rs : List α) :
    ∀ r : α, (foldlMinBy key r rs = r ∨ foldlMinBy key r rs ∈ rs) ∧
      key (foldlMinBy key r rs) ≤ key r ∧
      ∀ x ∈ rs, key (foldlMinBy key r rs) ≤ key x := by
  induction rs with
  | nil => exact fun r => ⟨Or.inl rfl, le_refl _, by simp⟩
  | cons x xs ih =>
      intro r
      rw [foldlMinBy_cons]
      by_cases h : key x < key r
      · rw [if_pos h]
        obtain ⟨hmem, hle, hall⟩ := ih x
        refine ⟨?_, le_trans hle (le_of_lt h), ?_⟩
        · rcases hmem with h1 | h1
          · exact Or.inr (by rw [h1]; exact List.mem_cons_self x xs)
          · exact Or.inr (List.mem_cons_of_mem x h1)
        · intro y hy
          rcases List.mem_cons.mp hy with h1 | h1
          · rw [h1]; exact hle
          · exact hall y h1
      · rw [if_neg h]
        obtain ⟨hmem, hle, hall⟩ := ih r
        refine ⟨?_, hle, ?_⟩
        · rcases hmem with h1 | h1
          · exact Or.inl h1
          · exact Or.inr (List.mem_cons_of_mem x h1)
        · intro y hy
          rcases List.mem_cons.mp hy with h1 | h1
          · rw [h1]; exact le_trans hle (not_lt.mp h)
          · exact hall y h1

/-- A record of `single_purchase_attempt` whose error entry is falsy comes
from the branch that parsed the body: it has no error entry at all and
carries a parsed payload. -/
theorem spa_valid_fields (w : AttemptWire) (d t : Int)
    (h : errTruthy (single_purchase_attempt w d t).error = false) :
    (single_purchase_attempt w d t).error = none ∧
    (single_purchase_attempt w d t).parsed_response.isSome = true := by
  cases w with
  | response s b p =>
      cases p with
      | parsed st => exact ⟨rfl, rfl⟩
      | decodeError => exact absurd h (by simp [single_purchase_attempt, errTruthy])
  | failure m => exact absurd h (by simp [single_purchase_attempt, errTruthy])

/-- Characterization of the success flag computed by
`single_purchase_attempt`: true exactly for a parsed response with
transport status 200 whose statut field equals "success". -/
theorem spa_success_charac (w : AttemptWire) (d t : Int) :
    (single_purchase_attempt w d t).success = true ↔
      ∃ body, w = .response 200 body (.parsed (some "success")) := by
  cases w with
  | response s b p =>
      cases p with
      | parsed st =>
          simp only [single_purchase_attempt, Bool.and_eq_true, beq_iff_eq]
          constructor
          · rintro ⟨rfl, rfl⟩; exact ⟨b, rfl⟩
          · rintro ⟨body, heq⟩
            injection heq with h1 h2 h3
            injection h3 with h4
            exact ⟨h1, h4⟩
      | decodeError => simp [single_purchase_attempt]
  | failure m => simp [single_purchase_attempt]

/-- Gathering a list of normally-returning tasks yields their results. -/
theorem gatherExcept_map_ok {ε α : Type} (rs : List α) :
    gatherExcept (ε := ε) (rs.map Except.ok) = .ok rs := by
  induction rs with
  | nil => rfl
  | cons a as ih => simp [gatherExcept, ih]

/-- If some task raised, the gather propagates an exception. -/
theorem gatherExcept_error_of_mem {ε α : Type} (ts : List (Except ε α)) (e : ε)
    (h : Except.error e ∈ ts) : ∃ e2, gatherExcept ts = .error e2 := by
  induction ts with
  | nil => cases h
  | cons t rest ih =>
      cases t with
      | error e1 => exact ⟨e1, rfl⟩
      | ok a =>
          have h2 : Except.error e ∈ rest := by
            rcases List.mem_cons.mp h with h1 | h1
            · cases h1
            · exact h1
          obtain ⟨e2, he2⟩ := ih h2
          exact ⟨e2, by simp [gatherExcept, he2]⟩

/-- Partial-correctness of the fine synchronization loop: whenever the
loop exits, the clock reading at the exit check is no earlier than the
target instant. -/
theorem fineWait_exit (clock : Nat → Int) (target : Int) :
    ∀ (fuel i j : Nat), fineWait clock target fuel i = some j → target ≤ clock j := by
  intro fuel
  induction fuel with
  | zero => intro i j h; cases h
  | succ n ih =>
      intro i j h
      unfold fineWait at h
      by_cases hc : clock i < target
      · rw [if_pos hc] at h; exact ih (i + 1) j h
      · rw [if_neg hc] at h
        injection h with h1
        rw [← h1]
        exact not_lt.mp hc

/-- C1 counterexample: a burst whose records include two successes, one
completing at t=98 and one at t=102, plus a parsed rejection completing
at t=50. The claim says the resolver selects the success with the
earliest completion timestamp (the t=98 one); `perform_concurrent_purchases`
instead returns the t=50 rejection record, whose success flag is false,
because it sorts every non-error record by timestamp without preferring
successes. -/
theorem claim1_counterexample :
    ((perform_concurrent_purchases_results 3 mixedBurstEnv).filter
        (fun r => r.success)).length = 2 ∧
    perform_concurrent_purchases 3 mixedBurstEnv =
      some (single_purchase_attempt (rejectionInp 50 4).wire 4 50) ∧
    (single_purchase_attempt (rejectionInp 50 4).wire 4 50).success = false ∧
    (single_purchase_attempt (rejectionInp 50 4).wire 4 50).timestamp = 50 := by
  exact ⟨by decide, by decide, by decide, by decide⟩

/-- C1 (amended): `perform_concurrent_purchases` returns the non-error
record with the earliest completion timestamp, which is the
earliest-completing success only when every non-error record is a
success; the selection in `perform_synchronized_purchase` instead keeps
the success-flagged records and picks the one whose duration *string* is
lexicographically smallest, ignoring completion timestamps. -/
theorem claim1_resolver_amended :
    (∀ (attempts : Nat) (env : Nat → AttemptInp) (r : AttemptRecord),
      perform_concurrent_purchases attempts env = some r →
      (∀ x ∈ perform_concurrent_purchases_results attempts env,
        errTruthy x.error = false → x.success = true) →
      r.success = true ∧
      ∀ x ∈ perform_concurrent_purchases_results attempts env,
        errTruthy x.error = false → r.timestamp ≤ x.timestamp) ∧
    (∀ (rs : List SyncAttempt) (w : SyncAttempt),
      selectWinner rs = some w →
      w.success = true ∧ w ∈ rs ∧
      ∀ x ∈ rs, x.success = true → w.duration_ms.data ≤ x.duration_ms.data) := by
  constructor
  · intro attempts env r hsome hall
    rcases hfil : (perform_concurrent_purchases_results attempts env).filter
        (fun x => !(errTruthy x.error)) with _ | ⟨r0, rs⟩
    · simp [perform_concurrent_purchases, hfil] at hsome
    · simp only [perform_concurrent_purchases, hfil, Option.some.injEq] at hsome
      obtain ⟨hmem, hle0, hlemin⟩ := foldlMinBy_spec (fun x => x.timestamp) rs r0
      have hrmem : r ∈ r0 :: rs := by
        rw [← hsome]
        rcases hmem with h1 | h1
        · rw [h1]; exact List.mem_cons_self r0 rs
        · exact List.mem_cons_of_mem r0 h1
      have hrfil : r ∈ (perform_concurrent_purchases_results attempts env).filter
          (fun x => !(errTruthy x.error)) := by rw [hfil]; exact hrmem
      have hr := List.mem_filter.mp hrfil
      have herr : errTruthy r.error = false := by simpa using hr.2
      refine ⟨hall r hr.1 herr, ?_⟩
      intro x hx hxerr
      have hxfil : x ∈ (perform_concurrent_purchases_results attempts env).filter
          (fun y => !(errTruthy y.error)) := List.mem_filter.mpr ⟨hx, by simp [hxerr]⟩
      rw [hfil] at hxfil
      rcases List.mem_cons.mp hxfil with h1 | h1
      · rw [h1, ← hsome]; exact hle0
      · rw [← hsome]; exact hlemin x h1
  · intro rs w hsome
    rcases hfil : rs.filter (fun x => x.success) with _ | ⟨r0, rest⟩
    · simp [selectWinner, hfil] at hsome
    · simp only [selectWinner, hfil, Option.some.injEq] at hsome
      obtain ⟨hmem, hle0, hlemin⟩ := foldlMinBy_spec (fun x => x.duration_ms.data) rest r0
      have hwmem : w ∈ r0 :: rest := by
        rw [← hsome]
        rcases hmem with h1 | h1
        · rw [h1]; exact List.mem_cons_self r0 rest
        · exact List.mem_cons_of_mem r0 h1
      have hwfil : w ∈ rs.filter (fun x => x.success) := by rw [hfil]; exact hwmem
      have hw := List.mem_filter.mp hwfil
      refine ⟨hw.2, hw.1, ?_⟩
      intro x hx hxs
      have hxfil : x ∈ rs.filter (fun y => y.success) := List.mem_filter.mpr ⟨hx, hxs⟩
      rw [hfil] at hxfil
      rcases List.mem_cons.mp hxfil with h1 | h1
      · rw [h1, ← hsome]; exact hle0
      · rw [← hsome]; exact hlemin x h1

/-- C1 witness: on a burst of two successes completing at t=102 and t=98,
the amended resolver property yields the t=98 success as winner. -/
theorem claim1_resolver_amended_witness :
    ∃ r, perform_concurrent_purchases 2 twoSuccessEnv = some r ∧
      r.success = true ∧ r.timestamp = 98 := by
  have hsome : perform_concurrent_purchases 2 twoSuccessEnv =
      some (single_purchase_attempt (successInp 98 30).wire 30 98) := by decide
  obtain ⟨hsucc, _⟩ := claim1_resolver_amended.1 2 twoSuccessEnv _ hsome (by decide)
  exact ⟨_, hsome, hsucc, by decide⟩

/-- C2 counterexample: `make_request` inside `perform_synchronized_purchase`
classifies a transport-status-200 response whose body fails to parse as a
success — the claim says such a response is never classified success. -/
theorem claim2_counterexample :
    (make_request 1 (.dt 0) (.response 200 "html not json" .decodeError) "5.00").success
      = true := rfl

/-- C2 (amended): the classifier of `single_purchase_attempt` yields
success exactly when the body parses, its statut field is "success" and
the transport status is 200 — so a 200 with an unparseable body is not a
success there — but `make_request` in `perform_synchronized_purchase`
marks every received response success regardless of status code or body
parseability. -/
theorem claim2_classifier_amended :
    (∀ (w : AttemptWire) (d t : Int),
      (single_purchase_attempt w d t).success = true ↔
        ∃ body, w = .response 200 body (.parsed (some "success"))) ∧
    (∀ (lot : Int) (pt : PyTime) (status : Nat) (body : String) (p : ParseResult)
        (dur : String),
      (make_request lot pt (.response status body p) dur).success = true) := by
  exact ⟨spa_success_charac, fun lot pt status body p dur => rfl⟩

/-- C2 witness: the amended characterization applied to a parsed success
response, and to an unparseable 503 response handed to `make_request`. -/
theorem claim2_classifier_amended_witness :
    (∃ body, AttemptWire.response 200 "statut success" (.parsed (some "success")) =
      AttemptWire.response 200 body (.parsed (some "success"))) ∧
    (make_request 7 (.dt 0) (.response 503 "oops" .decodeError) "1.00").success = true :=
  ⟨(claim2_classifier_amended.1
      (AttemptWire.response 200 "statut success" (.parsed (some "success"))) 3 5).mp
      (by decide),
   claim2_classifier_amended.2 7 (.dt 0) 503 "oops" .decodeError "1.00"⟩

/-- C3 (code bug): with a successfully authenticated session, a batch of
3 lots returns an empty batch result instead of 3 ordered lot results,
because `perform_timed_purchase_batch` passes the whole `purchase_times`
list as each task's `purchase_time` argument, every task raises
`TypeError` on its first statement, the gather propagates it, and the
batch-level `except` collapses the results to the empty list. -/
theorem claim3_batch_bug :
    (login_to_website goodLoginEnv).success = true ∧
    perform_timed_purchase_batch goodLoginEnv trivLotEnv [1, 2, 3]
      [1000, 2000, 3000] 50 = some [] := by
  exact ⟨by decide, by decide⟩

/-- C4 counterexample: a lot whose warm-up request raises
`ConnectionError`. The claim says the error is swallowed and the burst is
still dispatched; instead `perform_synchronized_purchase` propagates the
warm-up exception (there is no try/except around `warmup_connection()`),
so the lot aborts with that exception and no lot result is produced. -/
theorem claim4_counterexample :
    perform_synchronized_purchase warmupFailEnv 10 = some (.error "ConnectionError") := rfl

/-- C4 (amended): a warm-up error is not swallowed: whenever the coarse
wait has exited and the warm-up request raises, the exception propagates
out of `perform_synchronized_purchase` unchanged and the burst is never
dispatched, aborting the lot. -/
theorem claim4_warmup_amended :
    ∀ (e : SyncEnv) (fuel : Nat) (target : Int) (i : Nat) (msg : String),
      e.purchase_time = .dt target →
      coarseWait e.clock target fuel 1 = some i →
      e.warmup = .error msg →
      perform_synchronized_purchase e fuel = some (.error msg) := by
  intro e fuel target i msg hpt hcw hw
  simp only [perform_synchronized_purchase, hpt, hcw, hw]

/-- C4 witness: the amended warm-up propagation applied to the concrete
environment whose warm-up raises `ConnectionError`. -/
theorem claim4_warmup_amended_witness :
    perform_synchronized_purchase warmupFailEnv 12 = some (.error "ConnectionError") :=
  claim4_warmup_amended warmupFailEnv 12 2000 1 "ConnectionError" rfl (by decide) rfl

/-- C5 counterexample: a batch whose first lot's orchestration raised and
whose second lot finished with a lot result. The claim says the failing
lot degrades to an all-attempts-failed entry and the other lots keep
their results; instead the gather exception reaches the batch-level
`except`, which replaces the whole result list with the empty list — the
failing lot gets no degraded entry and the second lot's result is lost. -/
theorem claim5_counterexample :
    batchGatherStage [.error "ConnectionError for lot 1", .ok (.allFailed 2 0)] = [] := rfl

/-- C5 (amended): when any lot's orchestration raises, the batch-level
except block discards every lot's result and returns the empty list (the
batch flow itself does not enter an error state); only when every lot
returns normally are the per-lot results kept, in task order. -/
theorem claim5_batch_amended :
    (∀ (tasks : List (Except String LotOutcome)) (e : String),
      Except.error e ∈ tasks → batchGatherStage tasks = []) ∧
    (∀ rs : List LotOutcome, batchGatherStage (rs.map Except.ok) = rs) := by
  constructor
  · intro tasks e h
    obtain ⟨e2, he2⟩ := gatherExcept_error_of_mem tasks e h
    simp [batchGatherStage, he2]
  · intro rs
    simp [batchGatherStage, gatherExcept_map_ok]

/-- C5 witness: the amended emptying behavior applied to a two-lot batch
whose second task raised. -/
theorem claim5_batch_amended_witness :
    batchGatherStage [Except.ok (.allFailed 3 1), Except.error "boom"] = [] :=
  claim5_batch_amended.1 _ "boom" (by simp)

/-- C6 counterexample: a batch whose authentication fails. The claim says
the visible status is then `error` with a diagnostic and no results;
instead `perform_timed_purchase_batch` returns the empty list without
raising, so `perform_purchases` records status `completed` with an empty
result list and no error message. -/
theorem claim6_counterexample :
    (login_to_website badLoginEnv).success = false ∧
    perform_purchases badLoginEnv trivLotEnv [1, 2] [10, 20] 5 =
      { status := .completed, results := some [], error_msg := none } := by
  exact ⟨by decide, by decide⟩

/-- C6 (amended): whenever the batch pipeline finishes, the visible
status is `completed` with the returned (possibly empty) result list;
in particular an authentication failure also yields status `completed`
with an empty result list — never the `error` status. -/
theorem claim6_status_amended :
    ∀ (lenv : LoginEnv) (lotEnv : Int → SyncEnvCore) (lots : List Int)
      (pts : List Int) (fuel : Nat),
      ((login_to_website lenv).success = false →
        perform_purchases lenv lotEnv lots pts fuel =
          { status := .completed, results := some [], error_msg := none }) ∧
      (∀ rs, perform_timed_purchase_batch lenv lotEnv lots pts fuel = some rs →
        perform_purchases lenv lotEnv lots pts fuel =
          { status := .completed, results := some rs, error_msg := none }) := by
  intro lenv lotEnv lots pts fuel
  constructor
  · intro hfail
    have hbatch : perform_timed_purchase_batch lenv lotEnv lots pts fuel = some [] := by
      simp [perform_timed_purchase_batch, hfail]
    simp [perform_purchases, hbatch]
  · intro rs h
    simp [perform_purchases, h]

/-- C6 witness: the amended status behavior applied to the failing-login
environment on a one-lot batch. -/
theorem claim6_status_amended_witness :
    perform_purchases badLoginEnv trivLotEnv [4] [7] 3 =
      { status := .completed, results := some [], error_msg := none } :=
  (claim6_status_amended badLoginEnv trivLotEnv [4] [7] 3).1 (by decide)

/-- C7: the fine synchronization loop exits only at a clock reading that
is no earlier than the target instant, and consequently, on a
monotone clock trace, the sync offset reported in the
all-attempts-failed result of `perform_synchronized_purchase` is
never negative. -/
theorem claim7_sync_offset :
    (∀ (clock : Nat → Int) (target : Int) (fuel i j : Nat),
      fineWait clock target fuel i = some j → target ≤ clock j) ∧
    (∀ (e : SyncEnv) (fuel : Nat) (l o : Int),
      (∀ a b : Nat, a ≤ b → e.clock a ≤ e.clock b) →
      perform_synchronized_purchase e fuel = some (.ok (.allFailed l o)) →
      0 ≤ o) := by
  refine ⟨fineWait_exit, ?_⟩
  intro e fuel l o hmono hres
  rcases e with ⟨core, lot, pt⟩
  cases pt with
  | listOfTimes ts => simp [perform_synchronized_purchase] at hres
  | dt target =>
      rcases hcw : coarseWait core.clock target fuel 1 with _ | i
      · simp [perform_synchronized_purchase, hcw] at hres
      · cases hw : core.warmup with
        | error msg => simp [perform_synchronized_purchase, hcw, hw] at hres
        | ok u =>
            rcases hfw : fineWait core.clock target fuel (i + 1) with _ | j
            · simp [perform_synchronized_purchase, hcw, hw, hfw] at hres
            · rcases hsel : selectWinner (burstResults lot (.dt target) core) with _ | w
              · simp only [perform_synchronized_purchase, hcw, hw, hfw, hsel,
                  Option.some.injEq, Except.ok.injEq] at hres
                have ho : core.clock (j + 1) - target = o := by
                  simpa using (LotOutcome.allFailed.injEq _ _ _ _).mp hres |>.2
                have h1 : target ≤ core.clock j := fineWait_exit core.clock target fuel (i + 1) j hfw
                have h2 : core.clock j ≤ core.clock (j + 1) := hmono j (j + 1) (Nat.le_succ j)
                omega
              · simp [perform_synchronized_purchase, hcw, hw, hfw, hsel] at hres

/-- C7 witness: the exit property at a concrete identity clock trace, and
the nonnegative offset of the concrete all-attempts-failed run. -/
theorem claim7_sync_offset_witness :
    ((5 : Int) ≤ natClock 5) ∧ ((0 : Int) ≤ 1) :=
  ⟨claim7_sync_offset.1 natClock 5 20 2 5 rfl,
   claim7_sync_offset.2 allFailEnv 20 1 1
     (fun a b h => by
       show (a : Int) ≤ (b : Int)
       exact_mod_cast h)
     rfl⟩

/-- C8: the burst size is the configured attempt count:
`perform_concurrent_purchases` always produces exactly `attempts` records
(default 5) no matter how many attempts raise or fail to parse, and the
burst of `perform_synchronized_purchase` always produces exactly 5
records; the gather returns only once every record is present. -/
theorem claim8_burst_count :
    (∀ (attempts : Nat) (env : Nat → AttemptInp),
      (perform_concurrent_purchases_results attempts env).length = attempts) ∧
    (∀ (lot : Int) (pt : PyTime) (e : SyncEnvCore),
      (burstResults lot pt e).length = 5) ∧
    concurrent_attempts_default = 5 := by
  refine ⟨?_, ?_, rfl⟩
  · intro attempts env
    simp [perform_concurrent_purchases_results]
  · intro lot pt e
    simp [burstResults]

/-- C9: `perform_concurrent_purchases` returns `none` exactly when every
attempt record carries a (truthy) error entry; any returned best record
has no error entry and holds a parsed payload; and a parsed rejection
(success flag false) can be the returned best record. -/
theorem claim9_best_result :
    (∀ (attempts : Nat) (env : Nat → AttemptInp),
      perform_concurrent_purchases attempts env = none ↔
      ∀ r ∈ perform_concurrent_purchases_results attempts env, errTruthy r.error = true) ∧
    (∀ (attempts : Nat) (env : Nat → AttemptInp) (r : AttemptRecord),
      perform_concurrent_purchases attempts env = some r →
      r.error = none ∧ r.parsed_response.isSome = true) ∧
    (∃ r, perform_concurrent_purchases 1 rejectionOnlyEnv = some r ∧ r.success = false) := by
  refine ⟨?_, ?_, ?_⟩
  · intro attempts env
    constructor
    · intro h r hr
      rcases hfil : (perform_concurrent_purchases_results attempts env).filter
          (fun x => !(errTruthy x.error)) with _ | ⟨r0, rs⟩
      · have := List.filter_eq_nil_iff.mp hfil r hr
        simpa using this
      · simp [perform_concurrent_purchases, hfil] at h
    · intro h
      have hfil : (perform_concurrent_purchases_results attempts env).filter
          (fun x => !(errTruthy x.error)) = [] :=
        List.filter_eq_nil_iff.mpr (fun r hr => by simp [h r hr])
      simp [perform_concurrent_purchases, hfil]
  · intro attempts env r hsome
    rcases hfil : (perform_concurrent_purchases_results attempts env).filter
        (fun x => !(errTruthy x.error)) with _ | ⟨r0, rs⟩
    · simp [perform_concurrent_purchases, hfil] at hsome
    · simp only [perform_concurrent_purchases, hfil, Option.some.injEq] at hsome
      obtain ⟨hmem, -, -⟩ := foldlMinBy_spec (fun x => x.timestamp) rs r0
      have hrmem : r ∈ r0 :: rs := by
        rw [← hsome]
        rcases hmem with h1 | h1
        · rw [h1]; exact List.mem_cons_self r0 rs
        · exact List.mem_cons_of_mem r0 h1
      have hrfil : r ∈ (perform_concurrent_purchases_results attempts env).filter
          (fun x => !(errTruthy x.error)) := by rw [hfil]; exact hrmem
      have hr := List.mem_filter.mp hrfil
      have herr : errTruthy r.error = false := by simpa using hr.2
      obtain ⟨i, -, hi⟩ := List.mem_map.mp hr.1
      rw [← hi] at herr ⊢
      exact spa_valid_fields _ _ _ herr
  · exact ⟨single_purchase_attempt (rejectionInp 10 5).wire 5 10, by decide, rfl⟩

/-- C9 witness: the none-dichotomy applied to an all-raising burst, and
the parsed-payload property applied to the burst whose best record is a
parsed rejection. -/
theorem claim9_best_result_witness :
    (∀ r ∈ perform_concurrent_purchases_results 1 allErrorEnv, errTruthy r.error = true) ∧
    ∃ r, perform_concurrent_purchases 1 rejectionOnlyEnv = some r ∧ r.error = none := by
  refine ⟨(claim9_best_result.1 1 allErrorEnv).mp (by decide), ?_⟩
  have hsome : perform_concurrent_purchases 1 rejectionOnlyEnv =
      some (single_purchase_attempt (rejectionInp 10 5).wire 5 10) := by decide
  obtain ⟨he, -⟩ := claim9_best_result.2.1 1 rejectionOnlyEnv _ hsome
  exact ⟨_, hsome, he⟩

/-- C10: `login_to_website` is total over its environment (the modelled
body catches every exception of the token fetch, the credential POST and
the login check), and whenever its success flag is false the returned
session and CSRF token are both none and the metrics dict carries an
error entry; when the flag is true, session and CSRF token are present. -/
theorem claim10_login_contract :
    ∀ env : LoginEnv,
      ((login_to_website env).success = false →
        (login_to_website env).session = none ∧
        (login_to_website env).csrf_token = none ∧
        ∃ v, ("error", v) ∈ (login_to_website env).metrics) ∧
      ((login_to_website env).success = true →
        (login_to_website env).session = some () ∧
        (login_to_website env).csrf_token.isSome = true) := by
  intro env
  rcases hf : fetch_login_page env.fetch with e | ⟨csrf, tok⟩
  · refine ⟨fun _ => ?_, fun h => ?_⟩
    · simp only [login_to_website, hf]
      exact ⟨rfl, rfl, ⟨.str e, by simp [loginFailure]⟩⟩
    · simp [login_to_website, hf, loginFailure] at h
  · rcases ha : env.auth with e | ⟨txt, url⟩
    · refine ⟨fun _ => ?_, fun h => ?_⟩
      · simp only [login_to_website, hf, ha]
        exact ⟨rfl, rfl, ⟨.str e, by simp [loginFailure]⟩⟩
      · simp [login_to_website, hf, ha, loginFailure] at h
    · cases hc : containsSub (pyLower txt) "error" || containsSub url "login" with
      | true =>
          refine ⟨fun _ => ?_, fun h => ?_⟩
          · simp only [login_to_website, hf, ha, hc]
            exact ⟨rfl, rfl, ⟨.str "Login failed", by simp [loginFailure]⟩⟩
          · simp [login_to_website, hf, ha, hc, loginFailure] at h
      | false =>
          refine ⟨fun h => ?_, fun _ => ?_⟩
          · simp [login_to_website, hf, ha, hc] at h
          · simp only [login_to_website, hf, ha, hc]
            exact ⟨rfl, rfl⟩

/-- C10 witness: the failure contract at the environment whose login page
lacks the CSRF cookie, and the success contract at the fully succeeding
environment. -/
theorem claim10_login_contract_witness :
    ((login_to_website badLoginEnv).session = none ∧
      (login_to_website badLoginEnv).csrf_token = none ∧
      ∃ v, ("error", v) ∈ (login_to_website badLoginEnv).metrics) ∧
    ((login_to_website goodLoginEnv).session = some () ∧
      (login_to_website goodLoginEnv).csrf_token.isSome = true) :=
  ⟨(claim10_login_contract badLoginEnv).1 (by decide),
   (claim10_login_contract goodLoginEnv).2 (by decide)⟩
